import Mathlib

/-!
Shallow embedding of the `lpdata/fraude_bilhetagem` repository
(modules `src/features.py`, `src/preprocessing.py`, `src/models.py`,
`src/metrics.py`) together with theorems settling the specification
claims about it.

Modelling conventions:
* Python floats are modelled by `ℚ`; the float value NaN is modelled by
  `Option ℚ` with `none` standing for NaN.
* Python dicts are modelled by association lists (insertion order is
  iteration order, keys unique, as for a Python dict).
* Python exceptions are modelled by `Except` with a dedicated error type
  per module.
-/

namespace Features

/-- `COLUNAS_RASTREIO` from `src/features.py`. -/
def COLUNAS_RASTREIO : List String :=
  ["id_transacao", "id_cartao", "ts_transacao", "data_transacao"]

/-- `COLUNA_ALVO` from `src/features.py`. -/
def COLUNA_ALVO : String := "target_fraude"

/-- `FEATURES_CATEGORICAS` from `src/features.py`. -/
def FEATURES_CATEGORICAS : List String :=
  ["temp_faixa", "valor_transacao_faixa", "periodo_dia"]

/-- `FEATURES_NUMERICAS` from `src/features.py`. -/
def FEATURES_NUMERICAS : List String :=
  [ "hora_transacao"
  , "dia_semana"
  , "fim_de_semana"
  , "tempo_vida_cartao_dias"
  , "tempo_desde_ultima_transacao_min"
  , "tempo_desde_ultima_transacao_horas"
  , "uso_intervalo_curto"
  , "qtd_transacoes_dia"
  , "qtd_transacoes_24h"
  , "uso_intenso_24h"
  , "linha_repetida"
  , "dispositivo_repetido"
  , "qtd_linhas_distintas_dia"
  , "qtd_dispositivos_distintos_dia"
  , "idade_suspeita"
  , "feriado_bin"
  , "feriado_nao_mapeado"
  , "sentido_ida"
  , "clima_adverso"
  , "cartao_qtd_transacoes"
  , "cartao_dias_ativos"
  , "cartao_media_transacoes_por_dia"
  , "cartao_qtd_linhas_distintas"
  , "cartao_qtd_dispositivos_distintos"
  , "cartao_qtd_motoristas_distintos"
  , "cartao_valor_transacao_mean"
  , "cartao_valor_transacao_std"
  , "cartao_pct_integracao"
  , "cartao_pct_feriado"
  , "cartao_pct_intervalo_curto"
  , "valor_vs_media_cartao"
  , "valor_zscore_cartao"
  , "valor_outlier_cartao"
  , "uso_acima_media_dia_cartao" ]

/-- `get_feature_names` from `src/features.py`: categorical list
concatenated with the numeric list. -/
def get_feature_names : List String :=
  FEATURES_CATEGORICAS ++ FEATURES_NUMERICAS

/-- `validate_feature_set` from `src/features.py`.  Python computes
`missing = set(expected) - set(columns)` and, when non-empty, raises
`ValueError` carrying `sorted(missing)`.  The error payload here is that
sorted list of missing names; `.ok ()` models a normal return.  The
`dedup` realises the set semantics of the Python set difference. -/
def validate_feature_set (columns : List String) : Except (List String) Unit :=
  let missing := (get_feature_names.filter (fun f => decide (f ∉ columns))).dedup
  if missing.isEmpty then .ok ()
  else .error (missing.insertionSort (fun a b => a ≤ b))

end Features

namespace Preprocessing

/-- The numeric branch of the `ColumnTransformer` built in this project:
a `SimpleImputer(strategy="median")` followed, when `scale` is set, by a
`StandardScaler`, applied to the listed columns. -/
structure NumericBranch where
  features : List String
  scale : Bool
deriving DecidableEq, Repr

/-- The categorical branch of the `ColumnTransformer` built in this
project: a `SimpleImputer(strategy="most_frequent")` followed by a
`OneHotEncoder(handle_unknown="ignore")` whose sparsity flag is
`sparse`, applied to the listed columns. -/
structure CategoricalBranch where
  features : List String
  sparse : Bool
deriving DecidableEq, Repr

/-- Model of an sklearn `ColumnTransformer` as configured by this
repository (`remainder="drop"`): the two branches plus the fit state.
`fittedOutputNames = none` models an unfit transformer; `some ns`
models a fitted one whose transform output columns are `ns` in order —
per the sklearn contract, `get_feature_names_out` on a fitted
transformer returns exactly the column names its transform produces. -/
structure ColumnTransformerModel where
  num : NumericBranch
  cat : CategoricalBranch
  fittedOutputNames : Option (List String)
deriving DecidableEq, Repr

/-- Semantics of the Python idiom `arg or DEFAULT` used in
`src/preprocessing.py` lines 61-62: `None` and the empty list are both
falsy, so both fall back to the default list. -/
def pyOrList (arg : Option (List String)) (default : List String) : List String :=
  match arg with
  | none => default
  | some l => if l.isEmpty then default else l

/-- `build_preprocessor` from `src/preprocessing.py`: defaults each
feature list through the Python `or` idiom, assembles the two branches,
and returns an unfit transformer. -/
def build_preprocessor (numeric_features categorical_features : Option (List String))
    (scale_numeric ohe_sparse : Bool) : ColumnTransformerModel :=
  { num := { features := pyOrList numeric_features Features.FEATURES_NUMERICAS
           , scale := scale_numeric }
  , cat := { features := pyOrList categorical_features Features.FEATURES_CATEGORICAS
           , sparse := ohe_sparse }
  , fittedOutputNames := none }

/-- Error outcomes of `get_feature_names_after_preprocessing`:
`notFittedError` models sklearn's `NotFittedError`, raised by
`get_feature_names_out` itself when the transformer is unfit. -/
inductive PrepError where
  | notFittedError
deriving DecidableEq, Repr

/-- `get_feature_names_after_preprocessing` from `src/preprocessing.py`.
A `ColumnTransformer` always provides the `get_feature_names_out`
method, so the `hasattr` guard of the source never fires for these
inputs; calling the method on an unfit transformer raises sklearn's
`NotFittedError`, which the wrapper propagates.  On a fitted
transformer the source returns `[str(n) for n in names]`, modelled by
mapping the identity over the (already string) names. -/
def get_feature_names_after_preprocessing (ct : ColumnTransformerModel) :
    Except PrepError (List String) :=
  match ct.fittedOutputNames with
  | none => .error .notFittedError
  | some names => .ok (names.map (fun n => n))

end Preprocessing

namespace Models

/-- Hyperparameters of the `LogisticRegression` estimator as
instantiated in `src/models.py`. -/
structure LogisticRegressionParams where
  penalty : String
  C : ℚ
  class_weight : String
  solver : String
  max_iter : Nat
  random_state : Int
deriving DecidableEq, Repr

/-- Hyperparameters of the `DecisionTreeClassifier` estimator as
instantiated in `src/models.py`. -/
structure DecisionTreeParams where
  max_depth : Option Nat
  min_samples_split : Nat
  min_samples_leaf : Nat
  random_state : Int
deriving DecidableEq, Repr

/-- Hyperparameters of the `RandomForestClassifier` estimator as
instantiated in `src/models.py` (`max_depth = none` is Python `None`:
unbounded depth; `n_jobs = -1`: all cores). -/
structure RandomForestParams where
  n_estimators : Nat
  max_depth : Option Nat
  min_samples_split : Nat
  min_samples_leaf : Nat
  n_jobs : Int
  random_state : Int
deriving DecidableEq, Repr

/-- The three estimator variants the model factory can place at the end
of a pipeline. -/
inductive Estimator where
  | logistic (p : LogisticRegressionParams)
  | tree (p : DecisionTreeParams)
  | forest (p : RandomForestParams)
deriving DecidableEq, Repr

/-- A model `Pipeline` from `src/models.py`: the preprocessing
`ColumnTransformer` followed by one estimator.  Freshly built pipelines
are unfit (`preprocess.fittedOutputNames = none`). -/
structure ModelPipeline where
  preprocess : Preprocessing.ColumnTransformerModel
  model : Estimator
deriving DecidableEq, Repr

/-- `build_preprocessor` from `src/models.py` (the module-local variant):
numeric branch = median imputation plus optional scaling over
`FEATURES_NUMERICAS`, categorical branch = most-frequent imputation plus
dense one-hot encoding over `FEATURES_CATEGORICAS`, unfit. -/
def build_preprocessor (scale_numeric : Bool) : Preprocessing.ColumnTransformerModel :=
  { num := { features := Features.FEATURES_NUMERICAS, scale := scale_numeric }
  , cat := { features := Features.FEATURES_CATEGORICAS, sparse := false }
  , fittedOutputNames := none }

/-- `build_logistic_regression` from `src/models.py`. -/
def build_logistic_regression (random_state : Int) : ModelPipeline :=
  { preprocess := build_preprocessor true
  , model := .logistic
      { penalty := "l2", C := 1, class_weight := "balanced"
      , solver := "lbfgs", max_iter := 2000, random_state := random_state } }

/-- `build_decision_tree` from `src/models.py`. -/
def build_decision_tree (random_state : Int) : ModelPipeline :=
  { preprocess := build_preprocessor false
  , model := .tree
      { max_depth := some 6, min_samples_split := 100
      , min_samples_leaf := 50, random_state := random_state } }

/-- `build_random_forest` from `src/models.py`. -/
def build_random_forest (random_state : Int) : ModelPipeline :=
  { preprocess := build_preprocessor false
  , model := .forest
      { n_estimators := 300, max_depth := none, min_samples_split := 100
      , min_samples_leaf := 50, n_jobs := -1, random_state := random_state } }

/-- `get_models` from `src/models.py`: the insertion-ordered dict of the
three model pipelines, modelled as an association list. -/
def get_models (random_state : Int) : List (String × ModelPipeline) :=
  [ ("Regressão Logística", build_logistic_regression random_state)
  , ("Árvore de Decisão", build_decision_tree random_state)
  , ("Random Forest", build_random_forest random_state) ]

/-- Model of a fitted pipeline as seen by `predict_proba` in
`src/models.py`: what matters there is whether the object exposes a
`predict_proba` capability and, when it does, the two-class probability
row it produces for each input row.  sklearn's `predict_proba` maps
rows independently, so the capability is a per-row function from a
feature row to the pair (probability of class 0, probability of
class 1). -/
structure FittedPipeline where
  probaFn : Option (List ℚ → ℚ × ℚ)

/-- Errors surfaced by `predict_proba`: the source raises
`AttributeError("Modelo não suporta predict_proba.")` when the
capability is missing — the `CapabilityError` of the specification. -/
inductive ModelError where
  | capabilityError (msg : String)
deriving DecidableEq, Repr

/-- `predict_proba` from `src/models.py`: guard on the capability, then
`model.predict_proba(X)[:, 1]` — the second column of the two-class
probability output, one entry per input row in row order. -/
def predict_proba (model : FittedPipeline) (X : List (List ℚ)) :
    Except ModelError (List ℚ) :=
  match model.probaFn with
  | none => .error (.capabilityError "Modelo não suporta predict_proba.")
  | some f => .ok (X.map (fun row => (f row).2))

end Models

namespace Metrics

/-- The thresholding `y_pred = (y_proba >= threshold).astype(int)`
shared by the metric functions in `src/metrics.py`. -/
def yPred (y_proba : List ℚ) (threshold : ℚ) : List Nat :=
  y_proba.map (fun p => if threshold ≤ p then 1 else 0)

/-- One cell of sklearn's `confusion_matrix(y_true, y_pred, labels=[0, 1])`:
the number of aligned positions whose true label is `t` and predicted
label is `p`.  Positions whose true label is outside `labels` fall in no
cell, exactly as in sklearn. -/
def confusionCount (y_true y_pred : List Nat) (t p : Nat) : Nat :=
  ((y_true.zip y_pred).filter (fun x => x.1 == t && x.2 == p)).length

/-- sklearn's binary `precision_score(y_true, y_pred, zero_division=zd)`:
`tp / (tp + fp)`, with `zd` substituted when no positives are predicted. -/
def precision_score (y_true y_pred : List Nat) (zero_division : ℚ) : ℚ :=
  let tp := confusionCount y_true y_pred 1 1
  let fp := confusionCount y_true y_pred 0 1
  if tp + fp = 0 then zero_division else (tp : ℚ) / (tp + fp)

/-- sklearn's binary `recall_score(y_true, y_pred, zero_division=zd)`:
`tp / (tp + fn)`, with `zd` substituted when there are no actual
positives. -/
def recall_score (y_true y_pred : List Nat) (zero_division : ℚ) : ℚ :=
  let tp := confusionCount y_true y_pred 1 1
  let fn := confusionCount y_true y_pred 1 0
  if tp + fn = 0 then zero_division else (tp : ℚ) / (tp + fn)

/-- sklearn's binary `f1_score(y_true, y_pred, zero_division=zd)`:
`2 tp / (2 tp + fp + fn)`, with `zd` substituted when the denominator is
zero. -/
def f1_score (y_true y_pred : List Nat) (zero_division : ℚ) : ℚ :=
  let tp := confusionCount y_true y_pred 1 1
  let fp := confusionCount y_true y_pred 0 1
  let fn := confusionCount y_true y_pred 1 0
  if 2 * tp + fp + fn = 0 then zero_division
  else (2 * tp : ℚ) / (2 * tp + fp + fn)

/-- Recursion of `average_precision_score`: walk the distinct score
thresholds in descending order, accumulating
`(recall(t) - recall(previous t)) * precision(t)`; `prevTP` carries the
true-positive count of the previous (higher) threshold. -/
def apGo (pairs : List (Nat × ℚ)) (nPos : Nat) : List ℚ → Nat → ℚ
  | [], _ => 0
  | t :: rest, prevTP =>
    let tpT := (pairs.filter (fun x => x.1 == 1 && decide (t ≤ x.2))).length
    let ppT := (pairs.filter (fun x => decide (t ≤ x.2))).length
    let prec : ℚ := if ppT = 0 then 0 else (tpT : ℚ) / ppT
    ((tpT : ℚ) - prevTP) / nPos * prec + apGo pairs nPos rest tpT

/-- sklearn's `average_precision_score(y_true, y_proba)` on binary
labels: `AP = Σ_t (R_t − R_{t−1}) P_t` over the distinct predicted
scores taken as thresholds in descending order, where at threshold `t`
a position is predicted positive iff its score is `≥ t`. -/
def average_precision_score (y_true : List Nat) (y_proba : List ℚ) : ℚ :=
  let pairs := y_true.zip y_proba
  let nPos := (pairs.filter (fun x => x.1 == 1)).length
  let thresholds := y_proba.dedup.insertionSort (fun a b => b ≤ a)
  apGo pairs nPos thresholds 0

/-- sklearn's `roc_auc_score(y_true, y_proba)` on binary labels, via the
equivalent Mann-Whitney statistic: the fraction of (positive, negative)
pairs ranked correctly, ties counting one half. -/
def roc_auc_score (y_true : List Nat) (y_proba : List ℚ) : ℚ :=
  let pairs := y_true.zip y_proba
  let pos := (pairs.filter (fun x => x.1 == 1)).map (fun x => x.2)
  let neg := (pairs.filter (fun x => x.1 == 0)).map (fun x => x.2)
  let num : ℚ :=
    (pos.map (fun pv =>
      (neg.map (fun nv => if nv < pv then (1 : ℚ) else if pv = nv then 1 / 2 else 0)).sum)).sum
  num / ((pos.length : ℚ) * (neg.length : ℚ))

/-- The `HoldoutResults` dataclass of `src/metrics.py`; `roc_auc` is
`Option ℚ` because the source stores `float("nan")` there when `y_true`
holds a single class. -/
structure HoldoutResults where
  pr_auc : ℚ
  roc_auc : Option ℚ
  precision : ℚ
  «recall» : ℚ
  f1 : ℚ
deriving DecidableEq, Repr

/-- `compute_classification_metrics` from `src/metrics.py`: thresholds
the probabilities, computes PR-AUC and ROC-AUC from the continuous
probabilities (ROC-AUC only when `np.unique(y_true)` has more than one
element, NaN otherwise) and precision/recall/F1 from the thresholded
labels. -/
def compute_classification_metrics (y_true : List Nat) (y_proba : List ℚ)
    (threshold zero_division : ℚ) : HoldoutResults :=
  let y_pred := yPred y_proba threshold
  { pr_auc := average_precision_score y_true y_proba
  , roc_auc :=
      if 1 < y_true.dedup.length then some (roc_auc_score y_true y_proba) else none
  , precision := precision_score y_true y_pred zero_division
  , «recall» := recall_score y_true y_pred zero_division
  , f1 := f1_score y_true y_pred zero_division }

/-- The dict returned by `operational_tradeoff` in `src/metrics.py`;
`pct_alertas` is `Option ℚ` because the source stores `float("nan")`
when the input is empty. -/
structure TradeoffStats where
  alertas_totais : Nat
  pct_alertas : Option ℚ
  fraudes_capturadas : Nat
  fraudes_perdidas : Nat
  precision : ℚ
  «recall» : ℚ
deriving DecidableEq, Repr

/-- `operational_tradeoff` from `src/metrics.py`: thresholds the
probabilities, reads the confusion cells, and reports alert volume,
alert rate (NaN on an empty input), captured and missed frauds, and
precision/recall at `zero_division = 0`. -/
def operational_tradeoff (y_true : List Nat) (y_proba : List ℚ)
    (threshold : ℚ) : TradeoffStats :=
  let y_pred := yPred y_proba threshold
  let tp := confusionCount y_true y_pred 1 1
  let fp := confusionCount y_true y_pred 0 1
  let fn := confusionCount y_true y_pred 1 0
  let alertas_totais := tp + fp
  let total := y_true.length
  { alertas_totais := alertas_totais
  , pct_alertas :=
      if total = 0 then none else some ((alertas_totais : ℚ) / (total : ℚ))
  , fraudes_capturadas := tp
  , fraudes_perdidas := fn
  , precision := precision_score y_true y_pred 0
  , «recall» := recall_score y_true y_pred 0 }

/-- The sort key relation of `tradeoff_table`: descending `pct_alertas`
with NaN placed last, as pandas `sort_values(ascending=False)` does
with its default `na_position="last"`. -/
def optGE : Option ℚ → Option ℚ → Prop
  | some x, some y => y ≤ x
  | some _, none => True
  | none, some _ => False
  | none, none => True

instance optGE.instDecidableRel : DecidableRel optGE := fun a b =>
  match a, b with
  | some x, some y => inferInstanceAs (Decidable (y ≤ x))
  | some _, none => isTrue trivial
  | none, some _ => isFalse id
  | none, none => isTrue trivial

instance optGE.instIsTotal : IsTotal (Option ℚ) optGE where
  total a b := by
    cases a <;> cases b <;> simp [optGE]
    exact le_total _ _

instance optGE.instIsTrans : IsTrans (Option ℚ) optGE where
  trans a b c hab hbc := by
    cases a <;> cases b <;> cases c <;> simp_all [optGE]
    exact le_trans hbc hab

/-- Row comparison used to model the `sort_values(by="pct_alertas",
ascending=False)` of `tradeoff_table`. -/
def rowGE (a b : String × TradeoffStats) : Prop :=
  optGE a.2.pct_alertas b.2.pct_alertas

instance rowGE.instDecidableRel : DecidableRel rowGE := fun a b =>
  inferInstanceAs (Decidable (optGE a.2.pct_alertas b.2.pct_alertas))

instance rowGE.instIsTotal : IsTotal (String × TradeoffStats) rowGE where
  total a b := optGE.instIsTotal.total a.2.pct_alertas b.2.pct_alertas

instance rowGE.instIsTrans : IsTrans (String × TradeoffStats) rowGE where
  trans _ _ _ hab hbc := optGE.instIsTrans.trans _ _ _ hab hbc

/-- `tradeoff_table` from `src/metrics.py`: one `operational_tradeoff`
row per model of the (insertion-ordered) dict, sorted by descending
alert rate.  pandas' default quicksort is not stable, so any sort
realising the comparison is a faithful model; insertion sort is used. -/
def tradeoff_table (y_true : List Nat) (proba_by_model : List (String × List ℚ))
    (threshold : ℚ) : List (String × TradeoffStats) :=
  let rows := proba_by_model.map
    (fun m => (m.1, operational_tradeoff y_true m.2 threshold))
  rows.insertionSort rowGE

/-- Model of a pandas `DataFrame` as consumed by
`consolidate_cv_results`: a row index of metric names, a list of column
names, and the row-major numeric data (`data[i][j]` is the value of row
`i` at column `j`). -/
structure DataFrame where
  index : List String
  columns : List String
  data : List (List ℚ)
deriving DecidableEq, Repr

/-- One row of the long-format output of `consolidate_cv_results`.
`mean`/`std` are `Option ℚ` because the dict branch uses
`stats.get(key, np.nan)`: a missing key yields NaN, modelled `none`. -/
structure CvRow where
  modelo : String
  metrica : String
  mean : Option ℚ
  std : Option ℚ
deriving DecidableEq, Repr

/-- Errors of `consolidate_cv_results`: `shapeError` models the
`ValueError` for a DataFrame lacking mean/std columns, `typeMismatch`
the `TypeError` for an input that is neither dict nor DataFrame. -/
inductive CvError where
  | shapeError (msg : String)
  | typeMismatch (msg : String)
deriving DecidableEq, Repr

/-- The possible runtime shapes of the `cv_summary` argument: a dict
from metric name to a stats dict, a pandas DataFrame, or anything
else. -/
inductive CvSummary where
  | dict (entries : List (String × List (String × ℚ)))
  | frame (df : DataFrame)
  | other
deriving Repr

/-- Python's `str.lower()` on ASCII column names: lowercase every
character. -/
def lowerString (s : String) : String := ⟨s.data.map Char.toLower⟩

/-- The column-name resolution `cols = \x7bc.lower(): c for c in df.columns\x7d`
followed by `cols.get(target)`: when several column names share a
lowercase form the later dict write wins, so this is the last column
whose lowercase equals `target`. -/
def lastLowerMatch (cols : List String) (target : String) : Option String :=
  (cols.filter (fun c => lowerString c == target)).getLast?

/-- Selecting the value of the named column in one data row (pandas
column selection by label, first matching position). -/
def lookupColumn (cols : List String) (row : List ℚ) (name : String) : Option ℚ :=
  match cols.findIdx? (fun c => c == name) with
  | none => none
  | some i => row[i]?

/-- `consolidate_cv_results` from `src/metrics.py`: a dict input yields
one long-format row per metric (insertion order), reading mean/std with
`stats.get(key, np.nan)`; a DataFrame input resolves its mean/std
columns case-insensitively and fails with the shape `ValueError` when
either is missing; any other input fails with the `TypeError`. -/
def consolidate_cv_results (cv_summary : CvSummary) (model_name : String) :
    Except CvError (List CvRow) :=
  match cv_summary with
  | .dict entries =>
      .ok (entries.map (fun e =>
        { modelo := model_name, metrica := e.1
        , mean := List.lookup "mean" e.2, std := List.lookup "std" e.2 }))
  | .frame df =>
      match lastLowerMatch df.columns "mean", lastLowerMatch df.columns "std" with
      | some mc, some sc =>
          .ok ((df.index.zip df.data).map (fun r =>
            { modelo := model_name, metrica := r.1
            , mean := lookupColumn df.columns r.2 mc
            , std := lookupColumn df.columns r.2 sc }))
      | _, _ =>
          .error (.shapeError "DataFrame de CV deve conter colunas mean e std.")
  | .other => .error (.typeMismatch "cv_summary deve ser dict ou pandas.DataFrame.")

end Metrics

/-- Helper: when every expected feature is present, the missing-feature
filter of `validate_feature_set` is empty. -/
lemma filter_missing_nil (C : List String)
    (h : ∀ f ∈ Features.get_feature_names, f ∈ C) :
    Features.get_feature_names.filter (fun f => decide (f ∉ C)) = [] := by
  rw [List.filter_eq_nil_iff]
  intro a ha
  simp [h a ha]

/-- Helper: over 0/1 labels and aligned lists, the two predicted-positive
confusion cells sum to the number of probabilities at or above the
threshold. -/
lemma alert_count (thr : ℚ) :
    ∀ (yt : List ℕ) (p : List ℚ), (∀ y ∈ yt, y = 0 ∨ y = 1) → yt.length = p.length →
      Metrics.confusionCount yt (Metrics.yPred p thr) 1 1
        + Metrics.confusionCount yt (Metrics.yPred p thr) 0 1
        = (p.filter (fun x => decide (thr ≤ x))).length := by
  intro yt
  induction yt with
  | nil =>
    intro p h hl
    have hp : p = [] := by
      cases p with
      | nil => rfl
      | cons q pl => simp at hl
    subst hp
    simp [Metrics.confusionCount, Metrics.yPred]
  | cons a ytl ih =>
    intro p h hl
    cases p with
    | nil => simp at hl
    | cons q pl =>
      have ha := h a (List.mem_cons_self a ytl)
      have hrest : ∀ y ∈ ytl, y = 0 ∨ y = 1 := fun y hy => h y (List.mem_cons_of_mem _ hy)
      have hl2 : ytl.length = pl.length := by simpa using hl
      have hih := ih pl hrest hl2
      rcases ha with h0 | h0 <;> subst h0 <;> by_cases hq : thr ≤ q <;>
        simp [Metrics.confusionCount, Metrics.yPred, hq, List.filter_cons] at hih ⊢ <;>
        omega

/-- C1: `compute_classification_metrics` binarizes the probabilities at
the threshold (≥ threshold → positive) and computes precision, recall
and F1 from those thresholded labels, while PR-AUC and ROC-AUC are
computed from the continuous probabilities (hence independent of the
threshold and of `zero_division`); on `y_true = [0,0,1,1]`,
`y_proba = [0.1, 0.4, 0.35, 0.8]`, `threshold = 0.5` the predicted
labels are `[0,0,0,1]` and precision = 1, recall = 0.5, F1 = 0.667
within 0.001. -/
theorem compute_classification_metrics_spec :
    (∀ (y_true : List ℕ) (y_proba : List ℚ) (threshold zero_division : ℚ),
      (Metrics.compute_classification_metrics y_true y_proba threshold zero_division).precision
          = Metrics.precision_score y_true (Metrics.yPred y_proba threshold) zero_division ∧
      (Metrics.compute_classification_metrics y_true y_proba threshold zero_division).«recall»
          = Metrics.recall_score y_true (Metrics.yPred y_proba threshold) zero_division ∧
      (Metrics.compute_classification_metrics y_true y_proba threshold zero_division).f1
          = Metrics.f1_score y_true (Metrics.yPred y_proba threshold) zero_division ∧
      (Metrics.compute_classification_metrics y_true y_proba threshold zero_division).pr_auc
          = Metrics.average_precision_score y_true y_proba) ∧
    (∀ (y_true : List ℕ) (y_proba : List ℚ) (t₁ t₂ z₁ z₂ : ℚ),
      (Metrics.compute_classification_metrics y_true y_proba t₁ z₁).pr_auc
          = (Metrics.compute_classification_metrics y_true y_proba t₂ z₂).pr_auc ∧
      (Metrics.compute_classification_metrics y_true y_proba t₁ z₁).roc_auc
          = (Metrics.compute_classification_metrics y_true y_proba t₂ z₂).roc_auc) ∧
    Metrics.yPred [(1:ℚ)/10, 4/10, 35/100, 8/10] (1/2) = [0, 0, 0, 1] ∧
    (Metrics.compute_classification_metrics [0,0,1,1]
        [(1:ℚ)/10, 4/10, 35/100, 8/10] (1/2) 0).precision = 1 ∧
    (Metrics.compute_classification_metrics [0,0,1,1]
        [(1:ℚ)/10, 4/10, 35/100, 8/10] (1/2) 0).«recall» = 1/2 ∧
    |(Metrics.compute_classification_metrics [0,0,1,1]
        [(1:ℚ)/10, 4/10, 35/100, 8/10] (1/2) 0).f1 - 667/1000| ≤ 1/1000 := by
  refine ⟨fun yt p thr zd => ⟨rfl, rfl, rfl, rfl⟩,
          fun yt p t₁ t₂ z₁ z₂ => ⟨rfl, rfl⟩, ?_, ?_, ?_, ?_⟩
  · norm_num [Metrics.yPred]
  · norm_num [Metrics.compute_classification_metrics, Metrics.precision_score,
      Metrics.confusionCount, Metrics.yPred]
  · norm_num [Metrics.compute_classification_metrics, Metrics.recall_score,
      Metrics.confusionCount, Metrics.yPred]
  · have h : (Metrics.compute_classification_metrics [0,0,1,1]
        [(1:ℚ)/10, 4/10, 35/100, 8/10] (1/2) 0).f1 = 2/3 := by
      norm_num [Metrics.compute_classification_metrics, Metrics.f1_score,
        Metrics.confusionCount, Metrics.yPred]
    rw [h, abs_le]
    constructor <;> norm_num

/-- C2: for every column collection containing the full feature set,
`validate_feature_set` returns normally even with extra columns; for
every collection omitting an expected feature `f`, it fails with the
error carrying the sorted list of the missing names, and `f` appears in
that list. -/
theorem validate_feature_set_spec :
    (∀ C : List String, (∀ f ∈ Features.get_feature_names, f ∈ C) →
        Features.validate_feature_set C = .ok ()) ∧
    (∀ C : List String, ∀ f ∈ Features.get_feature_names, f ∉ C →
        ∃ missing, Features.validate_feature_set C = .error missing ∧
          f ∈ missing ∧ missing.Sorted (· ≤ ·) ∧
          ∀ g, g ∈ missing ↔ (g ∈ Features.get_feature_names ∧ g ∉ C)) := by
  constructor
  · intro C h
    unfold Features.validate_feature_set
    rw [filter_missing_nil C h]
    rfl
  · intro C f hf hfC
    unfold Features.validate_feature_set
    set m0 := (Features.get_feature_names.filter (fun f => decide (f ∉ C))).dedup with hm0
    have hfm : f ∈ m0 := by
      rw [hm0]
      simp [List.mem_dedup, List.mem_filter, hf, hfC]
    have hne : m0.isEmpty = false := by
      cases hm : m0 with
      | nil => rw [hm] at hfm; exact absurd hfm (List.not_mem_nil f)
      | cons x xs => rfl
    refine ⟨m0.insertionSort (fun a b => a ≤ b), ?_, ?_, ?_, ?_⟩
    · simp [hne]
    · rw [List.mem_insertionSort]; exact hfm
    · exact List.sorted_insertionSort _ _
    · intro g
      rw [List.mem_insertionSort, hm0]
      simp [List.mem_dedup, List.mem_filter]

/-- C2 witness: the full feature list itself validates, and the empty
column set fails reporting the categorical feature `temp_faixa`. -/
theorem validate_feature_set_witness :
    Features.validate_feature_set Features.get_feature_names = .ok () ∧
    ∃ missing, Features.validate_feature_set [] = .error missing ∧
      "temp_faixa" ∈ missing ∧ missing.Sorted (· ≤ ·) := by
  constructor
  · exact validate_feature_set_spec.1 Features.get_feature_names (fun f hf => hf)
  · obtain ⟨m, h1, h2, h3, _⟩ := validate_feature_set_spec.2 []
      "temp_faixa" (by simp [Features.get_feature_names, Features.FEATURES_CATEGORICAS])
      (by simp)
    exact ⟨m, h1, h2, h3⟩

/-- C3: over equal-length 0/1 labels and probabilities,
`operational_tradeoff` reports `alertas_totais` = the predicted-positive
count (probability ≥ threshold), `pct_alertas` = that count over the
total row count (NaN when the total is zero), `fraudes_capturadas` =
the true positives and `fraudes_perdidas` = the false negatives; on
`y_true = [0,1,1,0]`, `y_proba = [0.2, 0.9, 0.3, 0.6]`,
`threshold = 0.5` it yields alerts 2, rate 0.5, captured 1, missed 1. -/
theorem operational_tradeoff_spec :
    (∀ (y_true : List ℕ) (y_proba : List ℚ) (threshold : ℚ),
      (∀ y ∈ y_true, y = 0 ∨ y = 1) → y_true.length = y_proba.length →
      (Metrics.operational_tradeoff y_true y_proba threshold).alertas_totais
          = (y_proba.filter (fun x => decide (threshold ≤ x))).length ∧
      (Metrics.operational_tradeoff y_true y_proba threshold).pct_alertas
          = (if y_true.length = 0 then none
             else some (((y_proba.filter (fun x => decide (threshold ≤ x))).length : ℚ)
                          / (y_true.length : ℚ))) ∧
      (Metrics.operational_tradeoff y_true y_proba threshold).fraudes_capturadas
          = Metrics.confusionCount y_true (Metrics.yPred y_proba threshold) 1 1 ∧
      (Metrics.operational_tradeoff y_true y_proba threshold).fraudes_perdidas
          = Metrics.confusionCount y_true (Metrics.yPred y_proba threshold) 1 0) ∧
    Metrics.operational_tradeoff [0,1,1,0] [(2:ℚ)/10, 9/10, 3/10, 6/10] (1/2)
        = ⟨2, some (1/2), 1, 1, 1/2, 1/2⟩ := by
  constructor
  · intro yt p thr h hl
    have hac := alert_count thr yt p h hl
    simp [Metrics.operational_tradeoff, ← hac]
  · norm_num [Metrics.operational_tradeoff, Metrics.precision_score,
      Metrics.recall_score, Metrics.confusionCount, Metrics.yPred]

/-- C3 witness: the universal part applied to the concrete example of
the claim. -/
theorem operational_tradeoff_witness :
    (∀ y ∈ ([0,1,1,0] : List ℕ), y = 0 ∨ y = 1) ∧
    ([0,1,1,0] : List ℕ).length = ([(2:ℚ)/10, 9/10, 3/10, 6/10]).length ∧
    (Metrics.operational_tradeoff [0,1,1,0] [(2:ℚ)/10, 9/10, 3/10, 6/10] (1/2)).alertas_totais
        = ([(2:ℚ)/10, 9/10, 3/10, 6/10].filter (fun x => decide ((1:ℚ)/2 ≤ x))).length :=
  ⟨by decide, by simp,
   (operational_tradeoff_spec.1 [0,1,1,0] [(2:ℚ)/10, 9/10, 3/10, 6/10] (1/2)
      (by decide) (by simp)).1⟩

/-- C4: the rows of `tradeoff_table` are a permutation of the per-model
`operational_tradeoff` results (each model exactly once) and are sorted
by non-increasing alert rate; the order of ties is whatever the sort
produces. -/
theorem tradeoff_table_spec :
    ∀ (y_true : List ℕ) (proba_by_model : List (String × List ℚ)) (threshold : ℚ),
      (Metrics.tradeoff_table y_true proba_by_model threshold).Perm
        (proba_by_model.map
          (fun m => (m.1, Metrics.operational_tradeoff y_true m.2 threshold))) ∧
      (Metrics.tradeoff_table y_true proba_by_model threshold).Sorted Metrics.rowGE :=
  fun _ _ _ => ⟨List.perm_insertionSort _ _, List.sorted_insertionSort _ _⟩

/-- C5: `consolidate_cv_results` maps a dict input to one long-format
row per metric (the concrete example yields exactly the single row
(ModelX, pr_auc, 0.8, 0.02)), accepts a tabular input whose columns
match mean/std case-insensitively, fails with the shape error when a
tabular input lacks recognizable mean/std columns, and fails with the
type-mismatch error when the input is neither a mapping nor tabular. -/
theorem consolidate_cv_results_spec :
    (∀ (entries : List (String × List (String × ℚ))) (name : String),
      Metrics.consolidate_cv_results (.dict entries) name
        = .ok (entries.map (fun e =>
            { modelo := name, metrica := e.1
            , mean := List.lookup "mean" e.2, std := List.lookup "std" e.2 }))) ∧
    Metrics.consolidate_cv_results
        (.dict [("pr_auc", [("mean", (8:ℚ)/10), ("std", 2/100)])]) "ModelX"
      = .ok [{ modelo := "ModelX", metrica := "pr_auc"
             , mean := some ((8:ℚ)/10), std := some (2/100) }] ∧
    (∀ (df : Metrics.DataFrame) (name mc sc : String),
      Metrics.lastLowerMatch df.columns "mean" = some mc →
      Metrics.lastLowerMatch df.columns "std" = some sc →
      Metrics.consolidate_cv_results (.frame df) name
        = .ok ((df.index.zip df.data).map (fun r =>
            { modelo := name, metrica := r.1
            , mean := Metrics.lookupColumn df.columns r.2 mc
            , std := Metrics.lookupColumn df.columns r.2 sc }))) ∧
    (∀ (df : Metrics.DataFrame) (name : String),
      Metrics.lastLowerMatch df.columns "mean" = none ∨
        Metrics.lastLowerMatch df.columns "std" = none →
      Metrics.consolidate_cv_results (.frame df) name
        = .error (.shapeError "DataFrame de CV deve conter colunas mean e std.")) ∧
    (∀ name : String,
      Metrics.consolidate_cv_results .other name
        = .error (.typeMismatch "cv_summary deve ser dict ou pandas.DataFrame.")) := by
  refine ⟨fun entries name => rfl, rfl, ?_, ?_, fun name => rfl⟩
  · intro df name mc sc hmc hsc
    simp [Metrics.consolidate_cv_results, hmc, hsc]
  · intro df name h
    rcases h with h | h
    · rcases hs : Metrics.lastLowerMatch df.columns "std" with _ | sc <;>
        simp [Metrics.consolidate_cv_results, h, hs]
    · rcases hm : Metrics.lastLowerMatch df.columns "mean" with _ | mc <;>
        simp [Metrics.consolidate_cv_results, h, hm]

/-- C5 witness: a DataFrame with columns `Mean`/`STD` is accepted with
the case-insensitive resolution, one lacking them gets the shape error,
and a non-dict non-DataFrame input gets the type-mismatch error. -/
theorem consolidate_cv_results_witness :
    Metrics.lastLowerMatch ["Mean", "STD"] "mean" = some "Mean" ∧
    Metrics.lastLowerMatch ["Mean", "STD"] "std" = some "STD" ∧
    Metrics.consolidate_cv_results
        (.frame ⟨["pr_auc"], ["Mean", "STD"], [[(8:ℚ)/10, 2/100]]⟩) "ModelX"
      = .ok [{ modelo := "ModelX", metrica := "pr_auc"
             , mean := some ((8:ℚ)/10), std := some (2/100) }] ∧
    Metrics.lastLowerMatch ["foo"] "mean" = none ∧
    Metrics.consolidate_cv_results (.frame ⟨["a"], ["foo"], [[1]]⟩) "M"
      = .error (.shapeError "DataFrame de CV deve conter colunas mean e std.") := by
  refine ⟨rfl, rfl, ?_, rfl, ?_⟩
  · rw [consolidate_cv_results_spec.2.2.1 ⟨["pr_auc"], ["Mean", "STD"], [[(8:ℚ)/10, 2/100]]⟩
        "ModelX" "Mean" "STD" rfl rfl]
    rfl
  · exact consolidate_cv_results_spec.2.2.2.1 ⟨["a"], ["foo"], [[1]]⟩ "M" (Or.inl rfl)

/-- C6: when `y_true` holds a single distinct class the returned
`roc_auc` is NaN (`none`), while PR-AUC, precision, recall and F1 are
computed by the normal score functions; when both classes occur,
`roc_auc` is the ROC-AUC of the continuous probabilities. -/
theorem roc_auc_single_class_spec :
    (∀ (y_true : List ℕ) (y_proba : List ℚ) (threshold zero_division : ℚ),
      y_true.dedup.length ≤ 1 →
      (Metrics.compute_classification_metrics y_true y_proba threshold zero_division).roc_auc
        = none) ∧
    (∀ (y_true : List ℕ) (y_proba : List ℚ) (threshold zero_division : ℚ),
      1 < y_true.dedup.length →
      (Metrics.compute_classification_metrics y_true y_proba threshold zero_division).roc_auc
        = some (Metrics.roc_auc_score y_true y_proba)) ∧
    (∀ (y_true : List ℕ) (y_proba : List ℚ) (threshold zero_division : ℚ),
      (Metrics.compute_classification_metrics y_true y_proba threshold zero_division).pr_auc
          = Metrics.average_precision_score y_true y_proba ∧
      (Metrics.compute_classification_metrics y_true y_proba threshold zero_division).precision
          = Metrics.precision_score y_true (Metrics.yPred y_proba threshold) zero_division ∧
      (Metrics.compute_classification_metrics y_true y_proba threshold zero_division).«recall»
          = Metrics.recall_score y_true (Metrics.yPred y_proba threshold) zero_division ∧
      (Metrics.compute_classification_metrics y_true y_proba threshold zero_division).f1
          = Metrics.f1_score y_true (Metrics.yPred y_proba threshold) zero_division) := by
  refine ⟨?_, ?_, fun yt p thr zd => ⟨rfl, rfl, rfl, rfl⟩⟩
  · intro yt p thr zd h
    simp only [Metrics.compute_classification_metrics]
    rw [if_neg (by omega)]
  · intro yt p thr zd h
    simp only [Metrics.compute_classification_metrics]
    rw [if_pos h]

/-- C6 witness: an all-zero label vector yields `roc_auc = none`; a
two-class label vector yields the ROC-AUC of the probabilities. -/
theorem roc_auc_single_class_witness :
    ([0,0,0] : List ℕ).dedup.length ≤ 1 ∧
    (Metrics.compute_classification_metrics [0,0,0]
        [(1:ℚ)/10, 2/10, 3/10] (1/2) 0).roc_auc = none ∧
    1 < ([0,1] : List ℕ).dedup.length ∧
    (Metrics.compute_classification_metrics [0,1] [(1:ℚ)/10, 9/10] (1/2) 0).roc_auc
      = some (Metrics.roc_auc_score [0,1] [(1:ℚ)/10, 9/10]) :=
  ⟨by decide,
   roc_auc_single_class_spec.1 [0,0,0] [(1:ℚ)/10, 2/10, 3/10] (1/2) 0 (by decide),
   by decide,
   roc_auc_single_class_spec.2.1 [0,1] [(1:ℚ)/10, 9/10] (1/2) 0 (by decide)⟩

/-- C7: `predict_proba` fails with the capability error when the fitted
estimator exposes no probability capability; otherwise it returns the
second column of the two-class probability output — the positive-class
probability — as a flat list with one entry per row of `X`, in row
order. -/
theorem predict_proba_spec :
    (∀ (m : Models.FittedPipeline) (X : List (List ℚ)), m.probaFn = none →
      Models.predict_proba m X
        = .error (.capabilityError "Modelo não suporta predict_proba.")) ∧
    (∀ (m : Models.FittedPipeline) (f : List ℚ → ℚ × ℚ) (X : List (List ℚ)),
      m.probaFn = some f →
      Models.predict_proba m X = .ok (X.map (fun row => (f row).2)) ∧
      (X.map (fun row => (f row).2)).length = X.length ∧
      ∀ i : Fin X.length,
        (X.map (fun row => (f row).2))[i.val]? = some ((f (X.get i)).2)) := by
  constructor
  · intro m X h
    simp [Models.predict_proba, h]
  · intro m f X h
    refine ⟨by simp [Models.predict_proba, h], by simp, ?_⟩
    intro i
    simp [List.getElem?_map, List.getElem?_eq_getElem i.isLt, List.get_eq_getElem]

/-- C7 witness: a pipeline without the capability errors out; one with
it returns the positive-class column rowwise. -/
theorem predict_proba_witness :
    (⟨none⟩ : Models.FittedPipeline).probaFn = none ∧
    Models.predict_proba ⟨none⟩ [[(3:ℚ)/10]]
      = .error (.capabilityError "Modelo não suporta predict_proba.") ∧
    Models.predict_proba ⟨some (fun r => (1 - r.headD 0, r.headD 0))⟩
        [[(3:ℚ)/10], [(7:ℚ)/10]]
      = .ok [(3:ℚ)/10, (7:ℚ)/10] := by
  refine ⟨rfl, predict_proba_spec.1 ⟨none⟩ [[(3:ℚ)/10]] rfl, ?_⟩
  rw [(predict_proba_spec.2 ⟨some (fun r => (1 - r.headD 0, r.headD 0))⟩
        (fun r => (1 - r.headD 0, r.headD 0)) [[(3:ℚ)/10], [(7:ℚ)/10]] rfl).1]
  rfl

/-- C8: `get_feature_names_after_preprocessing` fails with the
`NotFittedError` model on every unfit preprocessor — in particular on
every preprocessor freshly built by either builder of this repository —
and on a fitted preprocessor returns exactly the stored post-transform
output column names in order. -/
theorem feature_names_after_preprocessing_spec :
    (∀ (nf cf : Option (List String)) (s o : Bool),
      Preprocessing.get_feature_names_after_preprocessing
          (Preprocessing.build_preprocessor nf cf s o) = .error .notFittedError) ∧
    (∀ s : Bool,
      Preprocessing.get_feature_names_after_preprocessing
          (Models.build_preprocessor s) = .error .notFittedError) ∧
    (∀ ct : Preprocessing.ColumnTransformerModel, ct.fittedOutputNames = none →
      Preprocessing.get_feature_names_after_preprocessing ct = .error .notFittedError) ∧
    (∀ (ct : Preprocessing.ColumnTransformerModel) (names : List String),
      ct.fittedOutputNames = some names →
      Preprocessing.get_feature_names_after_preprocessing ct = .ok names) := by
  refine ⟨fun nf cf s o => rfl, fun s => rfl, ?_, ?_⟩
  · intro ct h
    simp [Preprocessing.get_feature_names_after_preprocessing, h]
  · intro ct names h
    simp [Preprocessing.get_feature_names_after_preprocessing, h]

/-- C8 witness: the spec applied to a concrete unfit and a concrete
fitted transformer. -/
theorem feature_names_after_preprocessing_witness :
    ({ num := ⟨[], false⟩, cat := ⟨[], false⟩, fittedOutputNames := none } :
        Preprocessing.ColumnTransformerModel).fittedOutputNames = none ∧
    Preprocessing.get_feature_names_after_preprocessing
        { num := ⟨[], false⟩, cat := ⟨[], false⟩, fittedOutputNames := none }
      = .error .notFittedError ∧
    ({ num := ⟨[], false⟩, cat := ⟨[], false⟩
     , fittedOutputNames := some ["hora_transacao", "temp_faixa_manha"] } :
        Preprocessing.ColumnTransformerModel).fittedOutputNames
      = some ["hora_transacao", "temp_faixa_manha"] ∧
    Preprocessing.get_feature_names_after_preprocessing
        { num := ⟨[], false⟩, cat := ⟨[], false⟩
        , fittedOutputNames := some ["hora_transacao", "temp_faixa_manha"] }
      = .ok ["hora_transacao", "temp_faixa_manha"] :=
  ⟨rfl,
   feature_names_after_preprocessing_spec.2.2.1 _ rfl,
   rfl,
   feature_names_after_preprocessing_spec.2.2.2 _ ["hora_transacao", "temp_faixa_manha"] rfl⟩

/-- C9: `get_models` returns exactly the three named unfit pipelines —
logistic regression with L2 penalty, C = 1, balanced class weights, the
quasi-Newton lbfgs solver, at most 2000 iterations and a scaling
preprocessor; decision tree and random forest with their fixed
hyperparameters and no scaling — each estimator carrying the given
random state. -/
theorem get_models_spec :
    ∀ rs : Int,
      Models.get_models rs =
        [ ("Regressão Logística",
           { preprocess :=
               { num := { features := Features.FEATURES_NUMERICAS, scale := true }
               , cat := { features := Features.FEATURES_CATEGORICAS, sparse := false }
               , fittedOutputNames := none }
           , model := .logistic
               { penalty := "l2", C := 1, class_weight := "balanced"
               , solver := "lbfgs", max_iter := 2000, random_state := rs } })
        , ("Árvore de Decisão",
           { preprocess :=
               { num := { features := Features.FEATURES_NUMERICAS, scale := false }
               , cat := { features := Features.FEATURES_CATEGORICAS, sparse := false }
               , fittedOutputNames := none }
           , model := .tree
               { max_depth := some 6, min_samples_split := 100
               , min_samples_leaf := 50, random_state := rs } })
        , ("Random Forest",
           { preprocess :=
               { num := { features := Features.FEATURES_NUMERICAS, scale := false }
               , cat := { features := Features.FEATURES_CATEGORICAS, sparse := false }
               , fittedOutputNames := none }
           , model := .forest
               { n_estimators := 300, max_depth := none, min_samples_split := 100
               , min_samples_leaf := 50, n_jobs := -1, random_state := rs } }) ] ∧
      (Models.get_models rs).map Prod.fst
        = ["Regressão Logística", "Árvore de Decisão", "Random Forest"] ∧
      (Models.get_models rs).length = 3 :=
  fun _ => ⟨rfl, rfl, rfl⟩

/-- C10: `build_preprocessor` treats an empty feature list like an
omitted one — through the Python `or` idiom an empty numeric or
categorical list falls back to the registry's full canonical list, so
no argument choice yields an empty numeric or categorical branch. -/
theorem build_preprocessor_empty_list_spec :
    (∀ (cf : Option (List String)) (s o : Bool),
      Preprocessing.build_preprocessor (some []) cf s o
        = Preprocessing.build_preprocessor none cf s o) ∧
    (∀ (nf : Option (List String)) (s o : Bool),
      Preprocessing.build_preprocessor nf (some []) s o
        = Preprocessing.build_preprocessor nf none s o) ∧
    (∀ (cf : Option (List String)) (s o : Bool),
      (Preprocessing.build_preprocessor (some []) cf s o).num.features
        = Features.FEATURES_NUMERICAS) ∧
    (∀ (nf : Option (List String)) (s o : Bool),
      (Preprocessing.build_preprocessor nf (some []) s o).cat.features
        = Features.FEATURES_CATEGORICAS) ∧
    (∀ (nf cf : Option (List String)) (s o : Bool),
      0 < (Preprocessing.build_preprocessor nf cf s o).num.features.length ∧
      0 < (Preprocessing.build_preprocessor nf cf s o).cat.features.length) := by
  refine ⟨fun cf s o => rfl, fun nf s o => rfl, fun cf s o => rfl, fun nf s o => rfl, ?_⟩
  intro nf cf s o
  constructor
  · show 0 < (Preprocessing.pyOrList nf Features.FEATURES_NUMERICAS).length
    cases nf with
    | none => simp [Preprocessing.pyOrList, Features.FEATURES_NUMERICAS]
    | some l =>
      cases l with
      | nil => simp [Preprocessing.pyOrList, Features.FEATURES_NUMERICAS]
      | cons x xs => simp [Preprocessing.pyOrList]
  · show 0 < (Preprocessing.pyOrList cf Features.FEATURES_CATEGORICAS).length
    cases cf with
    | none => simp [Preprocessing.pyOrList, Features.FEATURES_CATEGORICAS]
    | some l =>
      cases l with
      | nil => simp [Preprocessing.pyOrList, Features.FEATURES_CATEGORICAS]
      | cons x xs => simp [Preprocessing.pyOrList]
